import Mathlib

/-!
Shallow embedding of the OsCvg web studio core (src/web/app/page.tsx):
the timeline/progress model, the real-time streaming renderer
(`scriptNode.onaudioprocess`), the timeline tick loop, and the offline
WAV exporter (`downloadWav`).

JavaScript numbers are modelled as exact rationals, except where the
source can produce the IEEE special values `Infinity`, `-Infinity` and
`NaN` (division by zero, modulo by zero); there a dedicated `JSNum` type
carries the special values explicitly.  Machine byte stores are modelled
as natural numbers `< 256`.
-/

namespace OsCvg

/-- The `Tab` union type of the page: `single | show`.  The `show`
variant is spelled `show'` because `show` is a Lean keyword. -/
inductive Tab
  | single
  | show'
  deriving DecidableEq, Repr

/-- Structure `ProcessedSignal` from page.tsx.  The `id` and `name` fields are
playback-irrelevant metadata (used only for labels and file names); the
sample arrays are modelled as lists of exact rationals. -/
structure ProcessedSignal where
  id : String
  name : String
  left : List ℚ
  right : List ℚ
  deriving Repr, Inhabited, DecidableEq

/-- JavaScript `ToInteger` style truncation toward zero, used by
`Math.trunc` semantics of `%` on numbers and by `DataView.setInt16`. -/
def jsTrunc (q : ℚ) : ℤ :=
  if q < 0 then ⌈q⌉ else ⌊q⌋

/-- A JavaScript number that may be one of the IEEE special values
produced by division by zero (`Infinity`, `-Infinity`, `NaN`).  Finite
values are exact rationals (rounding is irrelevant to the properties
proved here); the two signed zeros are collapsed to `0`. -/
inductive JSNum
  | num (q : ℚ)
  | posInf
  | negInf
  | nan
  deriving DecidableEq, Repr

/-- JavaScript `Math.min` (binary): `NaN` if either argument is `NaN`,
otherwise the order with `-Infinity < finite < Infinity`. -/
def jsMin : JSNum → JSNum → JSNum
  | .nan, _ => .nan
  | _, .nan => .nan
  | .negInf, _ => .negInf
  | _, .negInf => .negInf
  | .posInf, b => b
  | .num a, .posInf => .num a
  | .num a, .num b => .num (min a b)

/-- JavaScript division of two finite numbers: `a / 0` is `Infinity`,
`-Infinity` or `NaN` according to the sign of `a` (`0 / 0 = NaN`);
otherwise the exact quotient. -/
def jsDiv (a b : ℚ) : JSNum :=
  if b = 0 then
    if 0 < a then .posInf
    else if a < 0 then .negInf
    else .nan
  else .num (a / b)

/-- JavaScript division with a possibly non-finite numerator (the
denominator stays finite, as everywhere in the source).  `NaN`
propagates; `±Infinity / b` keeps the sign for `0 ≤ b` (negative
denominators never occur in the source). -/
def jsDivN : JSNum → ℚ → JSNum
  | .num a, b => jsDiv a b
  | .posInf, _ => .posInf
  | .negInf, _ => .negInf
  | .nan, _ => .nan

/-- JavaScript `%` (fmod) on two finite numbers: `a % 0 = NaN`, else
`a - b * trunc (a / b)`. -/
def jsMod (a b : ℚ) : JSNum :=
  if b = 0 then .nan else .num (a - b * jsTrunc (a / b))

/-- The finite case of `jsMod`, for call sites where the source has
already checked the divisor is nonzero. -/
def jsModQ (a b : ℚ) : ℚ :=
  a - b * jsTrunc (a / b)

/-- Single-mode draw-in progress, from page.tsx:
`progress = Math.min(1.0, time / animateDuration)`.  (Lines 298-300,
377, 470-471; the same expression appears in the audio callback, the
visualization loop and the exporter.) -/
def singleProgress (time animateDuration : ℚ) : JSNum :=
  jsMin (.num 1) (jsDiv time animateDuration)

/-- Show-mode draw-in progress, from page.tsx:
`segmentTime = time % showInterval;
 progress = Math.min(1.0, segmentTime / animateDuration)`. -/
def showProgress (time showInterval animateDuration : ℚ) : JSNum :=
  jsMin (.num 1) (jsDivN (jsMod time showInterval) animateDuration)

/-- One step of the Timeline Loop (page.tsx lines 349-360):
`newTime = currentTimeRef.current + delta;
 if (activeTab === 'show' && newTime >= totalShowDuration)
   currentTimeRef.current = 0; else currentTimeRef.current = newTime;`. -/
def timelineTick (activeTab : Tab) (totalShowDuration current delta : ℚ) : ℚ :=
  let newTime := current + delta
  if activeTab = Tab.show' ∧ totalShowDuration ≤ newTime then 0 else newTime

/-- The slice of component state read and written by
`updateShowInterval`. -/
structure IntervalSettings where
  showInterval : ℚ
  animateDuration : ℚ
  deriving Repr, DecidableEq

/-- Function `updateShowInterval` (page.tsx lines 104-109):
`setShowInterval(val); if (animateDuration > val) setAnimateDuration(val);`. -/
def updateShowInterval (s : IntervalSettings) (val : ℚ) : IntervalSettings :=
  { showInterval := val
    animateDuration := if s.animateDuration > val then val else s.animateDuration }

/-! ## Real-Time Renderer (`playAudio` / `scriptNode.onaudioprocess`) -/

/-- Signal resolution at the top of `onaudioprocess` (page.tsx lines
298-306): in single mode `currentSignal = singleSignal || undefined`;
in show mode `idx = Math.floor(time / showInterval) % playlist.length`
and `currentSignal = playlist[idx]`.  With an empty playlist the
modulus is `NaN` and `playlist[NaN]` is `undefined` (`none` here); a
negative or fractional `idx` also yields `undefined`.  `%` on numbers
keeps the sign of the dividend, hence `Int.tmod`. -/
def resolveSignal (activeTab : Tab) (singleSignal : Option ProcessedSignal)
    (playlist : List ProcessedSignal) (time showInterval : ℚ) :
    Option ProcessedSignal :=
  match activeTab with
  | .single => singleSignal
  | .show' =>
      if playlist.length = 0 then none
      else
        let j : ℤ := Int.tmod ⌊time / showInterval⌋ playlist.length
        if h : 0 ≤ j ∧ j.toNat < playlist.length then
          some (playlist.get ⟨j.toNat, h.2⟩)
        else none

/-- The draw-in progress computed by `onaudioprocess` before the null
check (page.tsx lines 298-306). -/
def resolveProgress (activeTab : Tab) (time showInterval animateDuration : ℚ) :
    JSNum :=
  match activeTab with
  | .single => singleProgress time animateDuration
  | .show' => showProgress time showInterval animateDuration

/-- The per-frame gate of the source `signalIdx < signalLen * progress`
(page.tsx line 316), spelled out for each shape of `progress`:
a comparison against `NaN` is false; `signalLen * Infinity` is
`Infinity` when `signalLen > 0` and `NaN` when `signalLen = 0`
(then the comparison is again false); symmetrically for `-Infinity`. -/
def gateOpen (signalLen : ℕ) (progress : JSNum) (signalIdx : ℕ) : Bool :=
  match progress with
  | .num p => decide ((signalIdx : ℚ) < signalLen * p)
  | .posInf => decide (0 < signalLen)
  | .negInf => false
  | .nan => false

/-- One output frame of the block loop (page.tsx lines 314-323):
`signalIdx = phase % signalLen;
 if (signalIdx < signalLen * progress) emit (left, right) else emit (0,0)`.
Out-of-range reads (impossible for well-formed signals) default to `0`,
matching the `undefined → NaN → 0` store path of a `Float32Array`. -/
def renderFrame (sig : ProcessedSignal) (progress : JSNum) (phase : ℕ) :
    ℚ × ℚ :=
  let signalLen := sig.left.length
  let signalIdx := phase % signalLen
  if gateOpen signalLen progress signalIdx then
    (sig.left.getD signalIdx 0, sig.right.getD signalIdx 0)
  else (0, 0)

/-- The block loop of `onaudioprocess` (page.tsx lines 314-324):
returns the emitted frames and the final `phase` (the ScanCursor),
which is incremented once per frame. -/
def renderBlock (sig : ProcessedSignal) (progress : JSNum) :
    ℕ → ℕ → List (ℚ × ℚ) × ℕ
  | phase, 0 => ([], phase)
  | phase, n + 1 =>
      let frame := renderFrame sig progress phase
      let rest := renderBlock sig progress (phase + 1) n
      (frame :: rest.1, rest.2)

/-- One invocation of `scriptNode.onaudioprocess` (page.tsx lines
293-325).  When no signal resolves the handler returns early
(`if (!currentSignal) return;`): the zero-initialized output buffer is
left untouched (a block of silence) and `phase` is not advanced. -/
def onaudioprocess (activeTab : Tab) (singleSignal : Option ProcessedSignal)
    (playlist : List ProcessedSignal)
    (time showInterval animateDuration : ℚ) (phase blockSize : ℕ) :
    List (ℚ × ℚ) × ℕ :=
  let progress := resolveProgress activeTab time showInterval animateDuration
  match resolveSignal activeTab singleSignal playlist time showInterval with
  | none => (List.replicate blockSize (0, 0), phase)
  | some sig => renderBlock sig progress phase blockSize

/-! ## Configuration and the gain stage -/

/-- The component state read by `playAudio` and `downloadWav`
(page.tsx lines 88-124): the active tab, the loaded signals, and the
timeline parameters.  `wavDuration` is a whole number of seconds (the
UI clamps it to `[1, 86400]`). -/
structure Config where
  activeTab : Tab
  singleSignal : Option ProcessedSignal
  playlist : List ProcessedSignal
  showInterval : ℚ
  animateDuration : ℚ
  wavDuration : ℕ
  gain : ℚ

/-- Derived value `totalShowDuration = playlist.length * showInterval`
(page.tsx line 124). -/
def Config.totalShowDuration (cfg : Config) : ℚ :=
  cfg.playlist.length * cfg.showInterval

/-- The audible output of one callback invocation: the block emitted by the script node routed
block routed through the gain node (`gainNode.gain.value = gain`,
page.tsx lines 327-330), i.e. each emitted stereo pair scaled by
`gain`. -/
def audibleBlock (cfg : Config) (time : ℚ) (phase blockSize : ℕ) :
    List (ℚ × ℚ) :=
  ((onaudioprocess cfg.activeTab cfg.singleSignal cfg.playlist time
      cfg.showInterval cfg.animateDuration phase blockSize).1).map
    (fun s => (cfg.gain * s.1, cfg.gain * s.2))

/-! ## Offline Exporter (`downloadWav`) -/

/-- Little-endian bytes of a 16-bit store (`DataView.setUint16`). -/
def u16le (n : ℕ) : List ℕ :=
  [n % 256, n / 256 % 256]

/-- Little-endian bytes of a 32-bit store (`DataView.setUint32`). -/
def u32le (n : ℕ) : List ℕ :=
  [n % 256, n / 256 % 256, n / 65536 % 256, n / 16777216 % 256]

/-- Store `DataView.setInt16`: the integer is reduced modulo `2 ^ 16` and
stored little-endian. -/
def i16le (v : ℤ) : List ℕ :=
  u16le (v.emod 65536).toNat

/-- The clamp of page.tsx lines 489 and 492:
`Math.max(-1, Math.min(1, x))`. -/
def clampQ (x : ℚ) : ℚ :=
  max (-1) (min 1 x)

/-- The quantization, by the exporter, of one clamped sample (page.tsx lines
489-493): `l < 0 ? l * 0x8000 : l * 0x7FFF`, truncated toward zero by
`setInt16`. -/
def quantize16 (x : ℚ) : ℤ :=
  let c := clampQ x
  if c < 0 then jsTrunc (c * 0x8000) else jsTrunc (c * 0x7FFF)

/-- The 44-byte WAV header written by `downloadWav` (page.tsx lines
446-460), in write order: `RIFF`, riff chunk size `36 + dataSize`,
`WAVE`, `fmt `, subchunk size 16, PCM tag 1, 2 channels, sample rate
48000, byte rate `48000 * 2 * 2`, block align 4, 16 bits per sample,
`data`, `dataSize`. -/
def wavHeader (dataSize : ℕ) : List ℕ :=
  [82, 73, 70, 70] ++ u32le (36 + dataSize) ++
  [87, 65, 86, 69] ++ [102, 109, 116, 32] ++
  u32le 16 ++ u16le 1 ++ u16le 2 ++ u32le 48000 ++
  u32le (48000 * 2 * 2) ++ u16le (2 * 2) ++ u16le 16 ++
  [100, 97, 116, 97] ++ u32le dataSize

/-- The `hasData` guard of `downloadWav` (page.tsx lines 430-432). -/
def hasData (cfg : Config) : Bool :=
  if cfg.activeTab = Tab.single then cfg.singleSignal.isSome
  else decide (0 < cfg.playlist.length)

/-- The signal and progress resolved by the exporter for output sample
`i` (page.tsx lines 465-478).  In single mode the non-null assertion
`singleSignal!` is modelled with a default (the guard `hasData` makes
it unreachable).  In show mode
`showLoopTime = totalShowDuration > 0 ? timeAtSample % totalShowDuration : 0`,
`idx = Math.floor(showLoopTime / showInterval) % playlist.length`,
`segmentTime = showLoopTime % showInterval`. -/
def wavResolve (cfg : Config) (i : ℕ) : ProcessedSignal × JSNum :=
  let timeAtSample : ℚ := (i : ℚ) / 48000
  match cfg.activeTab with
  | .single =>
      (cfg.singleSignal.getD default, singleProgress timeAtSample cfg.animateDuration)
  | .show' =>
      let showLoopTime : ℚ :=
        if 0 < cfg.totalShowDuration then jsModQ timeAtSample cfg.totalShowDuration
        else 0
      let idx : ℕ := (Int.tmod ⌊showLoopTime / cfg.showInterval⌋ cfg.playlist.length).toNat
      (cfg.playlist.getD idx default,
       showProgress showLoopTime cfg.showInterval cfg.animateDuration)

/-- The ternary `isSingle ? wavDuration : showInterval`: the loop-window duration
of the index mapping of the exporter (page.tsx lines 486-488). -/
def wavWindowDuration (cfg : Config) : ℚ :=
  match cfg.activeTab with
  | .single => (cfg.wavDuration : ℚ)
  | .show' => cfg.showInterval

/-- The expression `i % (sampleRate * windowDuration)` of page.tsx lines 486-488: a
JavaScript fmod (the window sample count can be fractional in show
mode). -/
def wavLocalIndex (cfg : Config) (i : ℕ) : ℚ :=
  jsModQ (i : ℚ) (48000 * wavWindowDuration cfg)

/-- The index `sigIdx = Math.floor((i % windowSamples) % len)` (page.tsx line
486), as a natural index (negative values cannot arise for the
nonnegative inputs of the loop). -/
def wavSigIdx (cfg : Config) (i : ℕ) : ℕ :=
  (⌊jsModQ (wavLocalIndex cfg i) ((wavResolve cfg i).1.left.length : ℚ)⌋).toNat

/-- The per-sample gate of the exporter loop (page.tsx line 488):
`(i % windowSamples) / sampleRate < windowDuration * progress`, spelled
out for each shape of `progress` (a comparison against `NaN` is false;
`windowDuration * Infinity` is `Infinity` for positive
`windowDuration`). -/
def wavGate (cfg : Config) (i : ℕ) : Bool :=
  match (wavResolve cfg i).2 with
  | .num p => decide (wavLocalIndex cfg i / 48000 < wavWindowDuration cfg * p)
  | .posInf => decide (0 < wavWindowDuration cfg)
  | .negInf => false
  | .nan => false

/-- The quantized stereo pair the exporter writes for output sample `i`
(page.tsx lines 488-500): when the gate is open, the clamped and
quantized `left[sigIdx % len]` and `right[sigIdx % len]`, else
`(0, 0)`. -/
def wavSamplePair (cfg : Config) (i : ℕ) : ℤ × ℤ :=
  let sig := (wavResolve cfg i).1
  let len := sig.left.length
  if wavGate cfg i then
    (quantize16 (sig.left.getD (wavSigIdx cfg i % len) 0),
     quantize16 (sig.right.getD (wavSigIdx cfg i % len) 0))
  else (0, 0)

/-- The four data bytes the exporter writes for output sample `i`:
two little-endian `setInt16` stores. -/
def wavSampleBytes (cfg : Config) (i : ℕ) : List ℕ :=
  i16le (wavSamplePair cfg i).1 ++ i16le (wavSamplePair cfg i).2

/-- The raw data chunk: `totalSamples` stereo frames in index order. -/
def wavData (cfg : Config) (totalSamples : ℕ) : List ℕ :=
  (List.range totalSamples).flatMap (wavSampleBytes cfg)

/-- Outcome of `downloadWav`: silently ignored (no data loaded),
rejected by the size guard (alert, no buffer allocated), or the
complete WAV byte string. -/
inductive WavResult
  | noData
  | rejected
  | file (bytes : List ℕ)
  deriving DecidableEq

/-- Function `downloadWav` (page.tsx lines 429-503): the `hasData` guard, the
size computation `dataSize = 48000 * wavDuration * 2 * 2`, the hard
rejection `dataSize > 0xFFFFFFFF - 44` before the `ArrayBuffer` is
allocated, then the header and the sample loop. -/
def downloadWav (cfg : Config) : WavResult :=
  if ¬ hasData cfg then .noData
  else
    let totalSamples := 48000 * cfg.wavDuration
    let dataSize := totalSamples * 2 * 2
    if dataSize > 0xFFFFFFFF - 44 then .rejected
    else .file (wavHeader dataSize ++ wavData cfg totalSamples)

/-- Read back a little-endian 32-bit field at byte offset `off`. -/
def readU32le (l : List ℕ) (off : ℕ) : ℕ :=
  l.getD off 0 + 256 * l.getD (off + 1) 0 + 65536 * l.getD (off + 2) 0 +
    16777216 * l.getD (off + 3) 0

/-! ## Concrete fixtures for witnesses and counterexamples -/

/-- A well-formed two-sample test signal. -/
def sigTwo : ProcessedSignal :=
  { id := "sig2", name := "sig2", left := [0, 1/2], right := [0, 1/2] }

/-- A single-mode configuration with `sigTwo` loaded and a one-second
export. -/
def cfgOne : Config :=
  { activeTab := Tab.single, singleSignal := some sigTwo, playlist := []
    showInterval := 5, animateDuration := 1, wavDuration := 1, gain := 1 }

/-- The same configuration with an export long enough to overflow the
32-bit WAV size field (`48000 * 22370 * 4 > 0xFFFFFFFF - 44`). -/
def cfgBig : Config :=
  { activeTab := Tab.single, singleSignal := some sigTwo, playlist := []
    showInterval := 5, animateDuration := 1, wavDuration := 22370, gain := 1 }

/-! ## C2 — progress at `animateDuration = 0` -/

/-- C2: the code bug behind the claim "the resolved draw-in progress is
always in `[0,1]` ... including `animateDuration = 0`, in which progress
is immediately 1".  At `position = 0` with `animateDuration = 0` the
source computes `Math.min(1.0, 0 / 0) = NaN`, not `1` (and `NaN` is not
in `[0,1]`); in show mode the same happens whenever the segment time is
zero, e.g. `time = 5` with `showInterval = 5`. -/
theorem C2_zero_duration_progress_nan :
    singleProgress 0 0 = JSNum.nan ∧
    showProgress 5 5 0 = JSNum.nan ∧
    JSNum.nan ≠ JSNum.num 1 := by
  refine ⟨by decide, ?_, by decide⟩
  norm_num [showProgress, jsMod, jsTrunc, jsDivN, jsDiv, jsMin]

/-! ## C4 — timeline tick with an empty playlist -/

/-- C4 counterexample: with an empty playlist (`totalShowDuration = 0`)
the claim says the loop check never resets the position, but one tick
from position `1` with delta `1` stores `0`, not the updated `2`. -/
theorem C4_counterexample :
    timelineTick Tab.show' 0 1 1 = 0 ∧ (1 + 1 : ℚ) ≠ 0 := by
  refine ⟨?_, by norm_num⟩
  norm_num [timelineTick]

/-- C4 amended: in Show mode with an empty playlist the loop check
`newTime >= totalShowDuration` compares against `0`, which every
nonnegative updated position satisfies, so every tick resets
PlayPosition to exactly `0` (the position is pinned at `0`, the
opposite of "never wrap"; no division occurs, so there is indeed no
division by zero). -/
theorem C4_empty_playlist_always_wraps (current delta : ℚ)
    (hc : 0 ≤ current) (hd : 0 ≤ delta) :
    timelineTick Tab.show' 0 current delta = 0 := by
  have h : (0 : ℚ) ≤ current + delta := by linarith
  simp [timelineTick, h]

/-- Witness for `C4_empty_playlist_always_wraps` at position `1`,
delta `1`. -/
theorem C4_empty_playlist_always_wraps_witness :
    timelineTick Tab.show' 0 2 3 = 0 :=
  C4_empty_playlist_always_wraps 2 3 (by norm_num) (by norm_num)

/-! ## C5 — timeline tick with a non-empty playlist -/

/-- C5: in Show mode with a non-empty playlist, a timeline tick stores
exactly `0` when the updated position reaches or exceeds
`playlistLength * showInterval`, stores the updated position otherwise,
and in either case the stored position never exceeds
`playlistLength * showInterval`. -/
theorem C5_show_tick_wraps_exactly (playlistLen : ℕ) (showInterval current delta : ℚ)
    (hL : 0 < playlistLen) (hI : 0 < showInterval) :
    timelineTick Tab.show' ((playlistLen : ℚ) * showInterval) current delta =
      (if (playlistLen : ℚ) * showInterval ≤ current + delta then 0
       else current + delta) ∧
    timelineTick Tab.show' ((playlistLen : ℚ) * showInterval) current delta ≤
      (playlistLen : ℚ) * showInterval := by
  have htot : 0 ≤ (playlistLen : ℚ) * showInterval := by positivity
  have hT : timelineTick Tab.show' ((playlistLen : ℚ) * showInterval) current delta =
      if (playlistLen : ℚ) * showInterval ≤ current + delta then 0
      else current + delta := by
    simp [timelineTick]
  refine ⟨hT, ?_⟩
  rw [hT]
  by_cases h : (playlistLen : ℚ) * showInterval ≤ current + delta
  · rw [if_pos h]
    exact htot
  · rw [if_neg h]
    linarith [not_le.mp h]

/-- Witness for `C5_show_tick_wraps_exactly` with 3 segments of 5
seconds, position 14 and delta 2 (the updated position 16 reaches the
15-second show length and wraps to 0). -/
theorem C5_show_tick_wraps_exactly_witness :
    timelineTick Tab.show' (((3 : ℕ) : ℚ) * 5) 14 2 =
      (if ((3 : ℕ) : ℚ) * 5 ≤ 14 + 2 then 0 else 14 + 2) ∧
    timelineTick Tab.show' (((3 : ℕ) : ℚ) * 5) 14 2 ≤ ((3 : ℕ) : ℚ) * 5 :=
  C5_show_tick_wraps_exactly 3 5 14 2 (by norm_num) (by norm_num)

/-! ## C9 — `updateShowInterval` clamps `animateDuration` -/

/-- C9: updating `showInterval` to a value strictly below the current
`animateDuration` clamps `animateDuration` down to the new value, and
after any `updateShowInterval` call the invariant
`animateDuration ≤ showInterval` holds. -/
theorem C9_update_show_interval_clamps (s : IntervalSettings) (val : ℚ) :
    (s.animateDuration > val → (updateShowInterval s val).animateDuration = val) ∧
    (updateShowInterval s val).animateDuration ≤
      (updateShowInterval s val).showInterval := by
  unfold updateShowInterval
  constructor
  · intro h
    simp [h]
  · by_cases h : s.animateDuration > val
    · simp [h]
    · simp only [if_neg h]
      exact le_of_not_lt h

/-- Witness for `C9_update_show_interval_clamps`: lowering the interval
from 5 to 2 with `animateDuration = 3` clamps it to 2. -/
theorem C9_update_show_interval_clamps_witness :
    ((⟨5, 3⟩ : IntervalSettings).animateDuration > 2 →
      (updateShowInterval ⟨5, 3⟩ 2).animateDuration = 2) ∧
    (updateShowInterval ⟨5, 3⟩ 2).animateDuration ≤
      (updateShowInterval ⟨5, 3⟩ 2).showInterval :=
  C9_update_show_interval_clamps ⟨5, 3⟩ 2

/-! ## C1 — the real-time gating boundary -/

/-- The gating rule as the specification words it (spec §4.3 and the
testable property list): the frame carries the sample pair exactly when
`idx < floor(signal.length * progress)` — boundary-inclusive below,
exclusive at or above `⌊len * progress⌋`. -/
def specFloorGatedFrame (sig : ProcessedSignal) (p : ℚ) (phase : ℕ) : ℚ × ℚ :=
  let len := sig.left.length
  let idx := phase % len
  if (idx : ℤ) < ⌊(len : ℚ) * p⌋ then
    (sig.left.getD idx 0, sig.right.getD idx 0)
  else (0, 0)

/-- The gating rule the source actually implements, with the comparison
`signalIdx < signalLen * progress` expressed through the integer
ceiling: for an integer index, `idx < len * progress` holds exactly
when `idx < ⌈len * progress⌉`. -/
def ceilGatedFrame (sig : ProcessedSignal) (p : ℚ) (phase : ℕ) : ℚ × ℚ :=
  let len := sig.left.length
  let idx := phase % len
  if (idx : ℤ) < ⌈(len : ℚ) * p⌉ then
    (sig.left.getD idx 0, sig.right.getD idx 0)
  else (0, 0)

/-- The frame at position `i` of a rendered block is the per-frame body
at phase `phase + i`. -/
theorem renderBlock_frame (sig : ProcessedSignal) (progress : JSNum) :
    ∀ (n phase i : ℕ), i < n →
      (renderBlock sig progress phase n).1.getD i (0, 0) =
        renderFrame sig progress (phase + i)
  | 0, _, i, hi => absurd hi (Nat.not_lt_zero i)
  | n + 1, phase, 0, _ => by
      simp [renderBlock]
  | n + 1, phase, i + 1, hi => by
      have ih := renderBlock_frame sig progress n (phase + 1) i
        (Nat.lt_of_succ_lt_succ hi)
      simp only [renderBlock, List.getD_cons_succ, ih]
      ring_nf

/-- The per-frame gate of the source coincides with the ceiling
boundary. -/
theorem renderFrame_eq_ceilGated (sig : ProcessedSignal) (p : ℚ) (phase : ℕ) :
    renderFrame sig (JSNum.num p) phase = ceilGatedFrame sig p phase := by
  simp only [renderFrame, ceilGatedFrame, gateOpen, Int.lt_ceil,
    Int.cast_natCast, decide_eq_true_eq]

/-- C1 counterexample: the boundary stated by the claim, `⌊len * progress⌋` is wrong
at the boundary index.  With the two-sample signal and
`progress = 3/4` (reached e.g. at `position = 3 s`,
`animateDuration = 4 s`, both exactly representable), frame 1 of the
block has `idx = 1` and `len * progress = 3/2`: the source emits the
sample pair (`1 < 3/2`), while the rule stated by the claim emits `(0, 0)`
(`1 < ⌊3/2⌋ = 1` is false). -/
theorem C1_counterexample :
    0 ≤ (3 / 4 : ℚ) ∧ (3 / 4 : ℚ) ≤ 1 ∧
    (renderBlock sigTwo (JSNum.num (3 / 4)) 0 2).1.getD 1 (0, 0) ≠
      specFloorGatedFrame sigTwo (3 / 4) 1 := by
  refine ⟨by norm_num, by norm_num, ?_⟩
  have h1 : (renderBlock sigTwo (JSNum.num (3 / 4)) 0 2).1.getD 1 (0, 0) =
      ((1 : ℚ) / 2, (1 : ℚ) / 2) := by
    norm_num [renderBlock, renderFrame, gateOpen, sigTwo]
  have h2 : specFloorGatedFrame sigTwo (3 / 4) 1 = ((0 : ℚ), (0 : ℚ)) := by
    norm_num [specFloorGatedFrame, sigTwo]
  rw [h1, h2]
  intro h
  exact absurd (congrArg Prod.fst h) (by norm_num)

/-- C1 amended: in the per-block loop, for every output frame with
`idx = ScanCursor mod signal.length`, the frame emits
`(left[idx], right[idx])` if and only if `idx < ⌈signal.length *
progress⌉` (ceiling, not floor: the boundary index
`⌊signal.length * progress⌋` is itself emitted whenever
`signal.length * progress` is not an integer), and emits `(0, 0)`
otherwise, for every progress in `[0, 1]`. -/
theorem C1_gating_boundary_is_ceil (sig : ProcessedSignal) (p : ℚ)
    (_hp0 : 0 ≤ p) (_hp1 : p ≤ 1) (phase n i : ℕ) (hi : i < n) :
    (renderBlock sig (JSNum.num p) phase n).1.getD i (0, 0) =
      ceilGatedFrame sig p (phase + i) := by
  rw [renderBlock_frame sig (JSNum.num p) n phase i hi,
    renderFrame_eq_ceilGated]

/-- Witness for `C1_gating_boundary_is_ceil` at the same input as the counterexample: the boundary frame is emitted, matching the ceiling rule. -/
theorem C1_gating_boundary_is_ceil_witness :
    (0 ≤ (3 / 4 : ℚ) ∧ (3 / 4 : ℚ) ≤ 1 ∧ (1 : ℕ) < 2) ∧
    (renderBlock sigTwo (JSNum.num (3 / 4)) 0 2).1.getD 1 (0, 0) =
      ceilGatedFrame sigTwo (3 / 4) (0 + 1) :=
  ⟨⟨by norm_num, by norm_num, by norm_num⟩,
   C1_gating_boundary_is_ceil sigTwo (3 / 4) (by norm_num) (by norm_num)
     0 2 1 (by norm_num)⟩

/-! ## C3 — callback with no resolved signal -/

/-- C3 counterexample: the claim says a no-signal invocation still
advances ScanCursor by the block size; with no single signal loaded
the handler returns early and the cursor stays at `7` instead of
`7 + 4096`. -/
theorem C3_counterexample :
    (onaudioprocess Tab.single none [] 0 5 1 7 4096).2 = 7 ∧
    (7 : ℕ) ≠ 7 + 4096 := by
  exact ⟨rfl, by norm_num⟩

/-- C3 amended: on every invocation in which no signal resolves, the
renderer emits silence for the whole output block (the zero-initialized
buffer is left untouched) and leaves ScanCursor unchanged — the early
`return` skips the loop, so the cursor does not advance at all (it
advances by the block size only when a signal resolves). -/
theorem C3_no_signal_silence_cursor_unchanged (activeTab : Tab)
    (singleSignal : Option ProcessedSignal) (playlist : List ProcessedSignal)
    (time showInterval animateDuration : ℚ) (phase blockSize : ℕ)
    (h : resolveSignal activeTab singleSignal playlist time showInterval = none) :
    onaudioprocess activeTab singleSignal playlist time showInterval
        animateDuration phase blockSize =
      (List.replicate blockSize (0, 0), phase) := by
  unfold onaudioprocess
  rw [h]

/-- Witness for `C3_no_signal_silence_cursor_unchanged`: single mode
with no signal loaded. -/
theorem C3_no_signal_silence_cursor_unchanged_witness :
    resolveSignal Tab.single none [] 0 5 = none ∧
    onaudioprocess Tab.single none [] 0 5 1 7 4096 =
      (List.replicate 4096 (0, 0), 7) :=
  ⟨rfl, C3_no_signal_silence_cursor_unchanged Tab.single none [] 0 5 1 7 4096 rfl⟩

/-! ## Exporter helper lemmas -/

/-- The header is always 44 bytes. -/
theorem wavHeader_length (dataSize : ℕ) : (wavHeader dataSize).length = 44 := rfl

/-- Each output sample contributes exactly 4 data bytes. -/
theorem wavSampleBytes_length (cfg : Config) (i : ℕ) :
    (wavSampleBytes cfg i).length = 4 := rfl

/-- The data chunk of `n` samples is `4 * n` bytes. -/
theorem wavData_length (cfg : Config) (n : ℕ) :
    (wavData cfg n).length = 4 * n := by
  induction n with
  | zero => rfl
  | succ k ih =>
      unfold wavData at ih ⊢
      rw [List.range_succ, List.flatMap_append, List.length_append, ih]
      simp [wavSampleBytes_length]
      omega

/-- Every quantized sample lies in the signed 16-bit range, for every
rational input, clamped before quantization. -/
theorem quantize16_range (x : ℚ) :
    -32768 ≤ quantize16 x ∧ quantize16 x ≤ 32767 := by
  unfold quantize16 clampQ
  set c := max (-1 : ℚ) (min 1 x) with hc
  have hc1 : -1 ≤ c := le_max_left _ _
  have hc2 : c ≤ 1 := max_le (by norm_num) (min_le_left _ _)
  by_cases h : c < 0
  · rw [if_pos h]
    unfold jsTrunc
    have hneg : c * 0x8000 < 0 := by nlinarith
    rw [if_pos hneg]
    constructor
    · have h1 : ((-32768 : ℤ) : ℚ) ≤ c * 0x8000 := by push_cast; nlinarith
      have h2 := Int.ceil_le_ceil h1
      rwa [Int.ceil_intCast] at h2
    · have h0 : ⌈c * 0x8000⌉ ≤ ⌈(0 : ℚ)⌉ := Int.ceil_le_ceil (le_of_lt hneg)
      norm_num at h0
      omega
  · rw [if_neg h]
    push_neg at h
    unfold jsTrunc
    have hnn : ¬ c * 0x7FFF < 0 := by nlinarith
    rw [if_neg hnn]
    constructor
    · have h0 : (0 : ℤ) ≤ ⌊c * 0x7FFF⌋ := Int.floor_nonneg.mpr (by nlinarith)
      omega
    · calc ⌊c * 0x7FFF⌋ ≤ ⌊(32767 : ℚ)⌋ := Int.floor_le_floor (by nlinarith)
        _ = 32767 := by norm_num

/-! ## C6 — hard size rejection -/

/-- C6: with data loaded, `downloadWav` rejects exactly when
`dataSize = 48000 * wavDuration * 2 * 2` exceeds `0xFFFFFFFF - 44`
(the rejection happens before the output buffer expression, and a
rejected run carries no bytes); for any smaller duration no size
rejection occurs. -/
theorem C6_size_limit_rejection (cfg : Config) (h : hasData cfg = true) :
    (downloadWav cfg = WavResult.rejected ↔
      48000 * cfg.wavDuration * 2 * 2 > 0xFFFFFFFF - 44) := by
  unfold downloadWav
  rw [h]
  by_cases hsz : 48000 * cfg.wavDuration * 2 * 2 > 0xFFFFFFFF - 44
  · simp [hsz]
  · simp [hsz]

/-- Witness for `C6_size_limit_rejection`: a 22370-second export
(`dataSize = 4294080000 + 960000 > 0xFFFFFFFF - 44`) is rejected. -/
theorem C6_size_limit_rejection_witness :
    hasData cfgBig = true ∧
    (downloadWav cfgBig = WavResult.rejected ↔
      48000 * cfgBig.wavDuration * 2 * 2 > 0xFFFFFFFF - 44) :=
  ⟨rfl, C6_size_limit_rejection cfgBig rfl⟩

/-! ## C7 — WAV header layout -/

/-- C7: for a one-second export with data loaded, the produced file has
`dataSize = 48000 * 2 * 2 = 192000`, the little-endian 32-bit field at
byte offset 4 holds `36 + dataSize`, the field at offset 40 holds
`dataSize`, and the file is `44 + dataSize` bytes long. -/
theorem C7_wav_header_layout (cfg : Config) (h : hasData cfg = true)
    (hd : cfg.wavDuration = 1) :
    ∃ bs, downloadWav cfg = WavResult.file bs ∧
      bs.length = 44 + 192000 ∧
      readU32le bs 4 = 36 + 192000 ∧
      readU32le bs 40 = 192000 := by
  have hhd : ∀ k, k < 44 →
      (wavHeader 192000 ++ wavData cfg 48000).getD k 0 =
        (wavHeader 192000).getD k 0 := by
    intro k hk
    exact List.getD_append _ _ _ _ (by rw [wavHeader_length]; omega)
  refine ⟨wavHeader 192000 ++ wavData cfg 48000, ?_, ?_, ?_, ?_⟩
  · unfold downloadWav
    rw [h, hd]
    norm_num
  · rw [List.length_append, wavHeader_length, wavData_length]
  · unfold readU32le
    rw [hhd 4 (by norm_num), hhd 5 (by norm_num), hhd 6 (by norm_num),
      hhd 7 (by norm_num)]
    rfl
  · unfold readU32le
    rw [hhd 40 (by norm_num), hhd 41 (by norm_num), hhd 42 (by norm_num),
      hhd 43 (by norm_num)]
    rfl

/-- Witness for `C7_wav_header_layout` on the concrete one-second
configuration. -/
theorem C7_wav_header_layout_witness :
    (hasData cfgOne = true ∧ cfgOne.wavDuration = 1) ∧
    ∃ bs, downloadWav cfgOne = WavResult.file bs ∧
      bs.length = 44 + 192000 ∧
      readU32le bs 4 = 36 + 192000 ∧
      readU32le bs 40 = 192000 :=
  ⟨⟨rfl, rfl⟩, C7_wav_header_layout cfgOne rfl rfl⟩

/-! ## C8 — clamped quantization range -/

/-- C8: every 16-bit integer the exporter writes to the data chunk lies
in `[-32768, 32767]`, for every configuration and sample index — the
clamp to `[-1, 1]` happens before quantization, so this holds for
arbitrary (also out-of-range) input sample values. -/
theorem C8_written_samples_in_range (cfg : Config) (i : ℕ) :
    -32768 ≤ (wavSamplePair cfg i).1 ∧ (wavSamplePair cfg i).1 ≤ 32767 ∧
    -32768 ≤ (wavSamplePair cfg i).2 ∧ (wavSamplePair cfg i).2 ≤ 32767 := by
  unfold wavSamplePair
  by_cases h : wavGate cfg i
  · simp only [h, if_true]
    exact ⟨(quantize16_range _).1, (quantize16_range _).2,
      (quantize16_range _).1, (quantize16_range _).2⟩
  · simp only [h, if_false]
    norm_num

/-! ## C10 — gain noninterference of the exporter -/

/-- C10: the exported byte sequence is identical for any two gains in
`[0, 1]` (the exporter never reads the gain), while the real-time
audible output is the scan output scaled by `gain` in a post-scan gain
stage: the audible block at gain `g₁` is the gain-1 block with every
stereo pair multiplied by `g₁`. -/
theorem C10_export_independent_of_gain (cfg : Config) (g₁ g₂ : ℚ)
    (_hg₁ : 0 ≤ g₁ ∧ g₁ ≤ 1) (_hg₂ : 0 ≤ g₂ ∧ g₂ ≤ 1)
    (time : ℚ) (phase blockSize : ℕ) :
    downloadWav { cfg with gain := g₁ } = downloadWav { cfg with gain := g₂ } ∧
    audibleBlock { cfg with gain := g₁ } time phase blockSize =
      (audibleBlock { cfg with gain := 1 } time phase blockSize).map
        (fun s => (g₁ * s.1, g₁ * s.2)) := by
  obtain ⟨tab, ss, pl, si, ad, wd, g⟩ := cfg
  constructor
  · rfl
  · simp [audibleBlock, List.map_map, Function.comp]

/-- Witness for `C10_export_independent_of_gain` at gains `1/2` and
`1/4` on the concrete configuration. -/
theorem C10_export_independent_of_gain_witness :
    ((0 ≤ (1 / 2 : ℚ) ∧ (1 / 2 : ℚ) ≤ 1) ∧ (0 ≤ (1 / 4 : ℚ) ∧ (1 / 4 : ℚ) ≤ 1)) ∧
    (downloadWav { cfgOne with gain := 1 / 2 } =
        downloadWav { cfgOne with gain := 1 / 4 } ∧
      audibleBlock { cfgOne with gain := 1 / 2 } 0 0 2 =
        (audibleBlock { cfgOne with gain := 1 } 0 0 2).map
          (fun s => ((1 / 2 : ℚ) * s.1, (1 / 2 : ℚ) * s.2))) :=
  ⟨⟨⟨by norm_num, by norm_num⟩, ⟨by norm_num, by norm_num⟩⟩,
   C10_export_independent_of_gain cfgOne (1 / 2) (1 / 4)
     ⟨by norm_num, by norm_num⟩ ⟨by norm_num, by norm_num⟩ 0 0 2⟩

end OsCvg
